import Mathlib

/-!
# Verification of the Intelligent-Query-Router

A shallow embedding, in Lean 4, of the routing logic of the
`Intelligent-Query-Router` repository, together with proofs of the
behavioural claims made by its specification.

The embedded components are:

* `RouteLLM` — `src/routellm_oai.py`, class `DirectOpenAIRouteLLM`:
  complexity classification (`classify_complexity`), model selection and
  execution (`route_and_execute`), construction (`__init__`) and the
  running aggregates (`total_cost`, `total_queries`, `model_usage`,
  `complexity_stats`).
* `Metrics` — `src/utils/metrics.py`, class `MetricsCollector`:
  the percentile fields of `get_statistics`.
* `Comparison` — `src/combined_comparison_oai.py`,
  `OAIRouterComparison._generate_comparison_analysis`: the winner column
  of the summary table.

Numbers that Python represents as `float` are modelled as exact rationals
(`ℚ`); Python's `round(x, n)` (banker's rounding of the scaled value) is
modelled by `pyRound`, which rounds the scaled value to the nearest
integer.  On every value produced by the embedded code the scaled value
never lands exactly half-way between two integers (the fractional parts
that occur are 0, 1/3 and 2/3), so the tie-breaking rule — the only point
where half-to-even and nearest rounding differ — is never exercised.
-/

namespace PyStr

/-- `prefL n h` : the char list `n` is a prefix of the char list `h`
(Python string comparison at one position). -/
def prefL : List Char → List Char → Bool
  | [], _ => true
  | _ :: _, [] => false
  | a :: n, b :: h => a == b && prefL n h

/-- `subL n h` : the char list `n` occurs contiguously inside `h`.
This is Python's substring containment `n in h`. -/
def subL (n : List Char) : List Char → Bool
  | [] => prefL n []
  | b :: h => prefL n (b :: h) || subL n h

/-- Python's `needle in hay` on strings: substring containment. -/
def pyIn (needle hay : String) : Bool := subL needle.toList hay.toList

/-- Python's `s.lower()`: lower-case every character (`Char.toLower`
handles the basic-latin letters, which covers every keyword of the
router). -/
def pyLower (s : String) : String := ⟨s.data.map Char.toLower⟩

end PyStr

namespace RouteLLM

open PyStr

/-- Python's `round(x, d)` modelled over `ℚ`: round `x * 10^d` to the
nearest integer and scale back.  (Python rounds a tie half-to-even; no
value produced by the embedded code scales to an exact tie, see the file
header.) -/
def pyRound (d : ℕ) (x : ℚ) : ℚ := (round (x * 10 ^ d) : ℤ) / 10 ^ d

/-- `complexity_indicators["high"]["keywords"]` (weight 0.8). -/
def highKeywords : List String :=
  ["explain", "analyze", "compare", "evaluate", "design",
   "architect", "optimize", "debug", "refactor", "implement",
   "develop", "build", "create complex", "algorithm", "system"]

/-- `complexity_indicators["medium"]["keywords"]` (weight 0.5). -/
def mediumKeywords : List String :=
  ["how", "why", "describe", "list", "summarize", "create",
   "generate", "write", "plan", "outline", "process"]

/-- `complexity_indicators["low"]["keywords"]` (weight 0.3). -/
def lowKeywords : List String :=
  ["what", "when", "where", "who", "define", "name",
   "count", "find", "show", "get", "is", "are"]

/-- `technical_terms` of `classify_complexity`. -/
def technicalTerms : List String :=
  ["API", "database", "algorithm", "architecture", "framework",
   "optimization", "performance", "scalability", "microservices"]

/-- `sum(1 for word in keywords if word in query_lower)`. -/
def keywordCount (kws : List String) (queryLower : String) : ℕ :=
  (kws.filter (fun w => pyIn w queryLower)).length

/-- `sum(1 for term in technical_terms if term.lower() in query_lower)`. -/
def techCount (queryLower : String) : ℕ :=
  (technicalTerms.filter (fun t => pyIn (pyLower t) queryLower)).length

/-- `min(len(query) / 300, 0.2)`. -/
def lengthFactor (query : String) : ℚ :=
  min ((query.length : ℚ) / 300) 0.2

/-- `min(tech_matches * 0.1, 0.2)`. -/
def techBoost (query : String) : ℚ :=
  min ((techCount (pyLower query) : ℚ) * 0.1) 0.2

/-- `query.count("?")` — the number of question marks. -/
def questionMarks (query : String) : ℕ :=
  (query.toList.filter (fun c => c = '?')).length

/-- `min(question_marks * 0.05, 0.1)`. -/
def questionFactor (query : String) : ℚ :=
  min ((questionMarks query : ℚ) * 0.05) 0.1

/-- Whether any `high` keyword matches (`scores["high"] > 0`). -/
def hasHigh (query : String) : Bool :=
  decide (0 < keywordCount highKeywords (pyLower query))

/-- Whether any `medium` keyword matches (`scores["medium"] > 0`). -/
def hasMedium (query : String) : Bool :=
  decide (0 < keywordCount mediumKeywords (pyLower query))

/-- The base score of the highest scoring matched category
(lines 108–117 of `routellm_oai.py`). -/
def baseScore (query : String) : ℚ :=
  if hasHigh query then 0.8 else if hasMedium query then 0.5 else 0.3

/-- The complexity level string accompanying `baseScore`. -/
def complexityLevel (query : String) : String :=
  if hasHigh query then "high" else if hasMedium query then "medium" else "low"

/-- The unrounded final complexity,
`min(base_score + length_factor + tech_boost + question_factor, 1.0)`. -/
def finalComplexity (query : String) : ℚ :=
  min (baseScore query + lengthFactor query + techBoost query
        + questionFactor query) 1

/-- The dictionary returned by `DirectOpenAIRouteLLM.classify_complexity`
(the keyword-match counts are kept as plain counts; the Python dict
stores them multiplied by the level's weight). -/
structure ComplexityResult where
  score : ℚ
  level : String
  base_score : ℚ
  length_factor : ℚ
  tech_boost : ℚ
  question_factor : ℚ
  high_matches : ℕ
  medium_matches : ℕ
  low_matches : ℕ
  deriving Repr, DecidableEq

/-- `DirectOpenAIRouteLLM.classify_complexity`. -/
def classify_complexity (query : String) : ComplexityResult :=
  { score := pyRound 3 (finalComplexity query)
    level := complexityLevel query
    base_score := baseScore query
    length_factor := pyRound 3 (lengthFactor query)
    tech_boost := pyRound 3 (techBoost query)
    question_factor := pyRound 3 (questionFactor query)
    high_matches := keywordCount highKeywords (pyLower query)
    medium_matches := keywordCount mediumKeywords (pyLower query)
    low_matches := keywordCount lowKeywords (pyLower query) }

/-- The pricing dictionary `self.costs` (input price, output price, per 1K
tokens). -/
def priceTable : List (String × ℚ × ℚ) :=
  [("gpt-4o", 0.005, 0.015),
   ("gpt-4", 0.03, 0.06),
   ("gpt-4o-mini", 0.00015, 0.0006),
   ("gpt-4o-nano", 0.000015, 0.00006),
   ("gpt-3.5-turbo", 0.0005, 0.0015)]

/-- `self.costs[m]` — `none` models a `KeyError`. -/
def lookupPrice (costs : List (String × ℚ × ℚ)) (m : String) : Option (ℚ × ℚ) :=
  (costs.find? (fun e => e.1 == m)).map (fun e => e.2)

/-- The mutable attributes of a `DirectOpenAIRouteLLM` instance (the
dictionaries `model_usage` and `complexity_stats` are modelled as total
maps; only keys the code initialises are ever read). -/
structure RouterState where
  api_key : String
  strong_model : String
  weak_model : String
  threshold : ℚ
  costs : List (String × ℚ × ℚ)
  total_cost : ℚ
  total_queries : ℕ
  total_latency : ℚ
  model_usage : String → ℕ
  complexity_stats : String → ℕ

/-- `DirectOpenAIRouteLLM.__init__`.  `api_key` is the constructor
argument, `env_key` the value of the `OPENAI_API_KEY` environment
variable; `strong`, `weak` and `threshold` are the resolved
`ROUTELLM_*` environment values (defaults `"gpt-4o-mini"`,
`"gpt-4o-nano"`, `0.7`).  Python's `api_key or os.getenv(...)` treats the
empty string as missing. -/
def routerInit (api_key env_key : Option String)
    (strong weak : String) (threshold : ℚ) : Except String RouterState :=
  let key := match api_key with
    | some s => if s = "" then env_key else some s
    | none => env_key
  match key with
  | none => .error "OpenAI API key not found. Set OPENAI_API_KEY environment variable or pass api_key parameter."
  | some k =>
    if k = "" then
      .error "OpenAI API key not found. Set OPENAI_API_KEY environment variable or pass api_key parameter."
    else
      .ok { api_key := k
            strong_model := strong
            weak_model := weak
            threshold := threshold
            costs := priceTable
            total_cost := 0
            total_queries := 0
            total_latency := 0
            model_usage := fun _ => 0
            complexity_stats := fun _ => 0 }

/-- `response.usage` of a chat-completion response. -/
structure ApiUsage where
  prompt_tokens : ℕ
  completion_tokens : ℕ

/-- The parts of a chat-completion response the router reads:
`response.choices[0].message.content` (may be `None`) and
`response.usage` (may be absent). -/
structure ApiResponse where
  content : Option String
  usage : Option ApiUsage

/-- Outcome of the external call
`self.client.chat.completions.create(...)`: either a response or a raised
exception (carrying `str(e)`). -/
inductive ApiOutcome where
  | success (resp : ApiResponse)
  | failure (msg : String)

/-- The system prompt sent with every query. -/
def sysPrompt : String :=
  "You are a helpful AI assistant. Provide clear, concise responses."

/-- The dictionary returned by `route_and_execute`. -/
structure RoutingDecision where
  query : String
  response : Option String
  complexity : ComplexityResult
  model : String
  input_tokens : ℕ
  output_tokens : ℕ
  total_tokens : ℕ
  cost : ℚ
  latency_ms : ℚ
  saved : Bool
  success : Bool

/-- Line 168: `selected_model = self.strong_model if complexity_score >=
self.threshold else self.weak_model`. -/
def selectModel (st : RouterState) (query : String) : String :=
  if (classify_complexity query).score ≥ st.threshold then st.strong_model
  else st.weak_model

/-- Result of the `try` block when no exception is raised.  The block
mutates only `self.total_cost`; `total_cost` is its updated value. -/
structure TrySuccess where
  total_cost : ℚ
  response_content : Option String
  input_tokens : ℕ
  output_tokens : ℕ
  cost : ℚ

/-- Lines 176–212 of `route_and_execute` (the body of the `try` block,
after the external call returned `resp`).  A missing price-table entry is
the `KeyError` raised by `self.costs[selected_model]` at line 195; it
happens before `self.total_cost` is touched. -/
def tryBody (st : RouterState) (countTokens : String → ℕ) (query : String)
    (selected : String) (resp : ApiResponse) : Except String TrySuccess :=
  let response_content := resp.content
  let input_tokens : ℕ := countTokens (query ++ sysPrompt)
  let output_tokens : ℕ := match response_content with
    | some c => if c = "" then 0 else countTokens c
    | none => 0
  match lookupPrice st.costs selected with
  | none => .error ("KeyError: " ++ selected)
  | some price =>
    let cost : ℚ := (input_tokens : ℚ) * price.1 / 1000
                     + (output_tokens : ℚ) * price.2 / 1000
    -- line 198: `self.total_cost += cost`
    let total1 := st.total_cost + cost
    match resp.usage with
    | none => .ok ⟨total1, response_content, input_tokens, output_tokens, cost⟩
    | some u =>
      let actual_cost : ℚ := (u.prompt_tokens : ℚ) * price.1 / 1000
                              + (u.completion_tokens : ℚ) * price.2 / 1000
      -- line 207: `cost = actual_cost` (before line 210 reads `cost`)
      let cost := actual_cost
      -- line 210: `self.total_cost = self.total_cost - cost + actual_cost`
      let total2 := total1 - cost + actual_cost
      .ok ⟨total2, response_content, u.prompt_tokens, u.completion_tokens, cost⟩

/-- Lines 170–173 of `route_and_execute`: the tracking counters are
updated before the external call is attempted. -/
def trackState (st : RouterState) (query : String) : RouterState :=
  { st with
    total_queries := st.total_queries + 1
    model_usage := fun m =>
      if m = selectModel st query then st.model_usage m + 1
      else st.model_usage m
    complexity_stats := fun l =>
      if l = (classify_complexity query).level then st.complexity_stats l + 1
      else st.complexity_stats l }

/-- `DirectOpenAIRouteLLM.route_and_execute`.  `countTokens` stands for
the tiktoken tokenizer (`self.count_tokens`), `outcome` for the result of
the external chat-completion call, and `latency_ms` for the measured wall
clock time. -/
def route_and_execute (st : RouterState) (countTokens : String → ℕ)
    (query : String) (outcome : ApiOutcome) (latency_ms : ℚ) :
    RouterState × RoutingDecision :=
  let complexity_analysis := classify_complexity query
  let selected := selectModel st query
  -- lines 170–173: update tracking before the external call
  let st1 := trackState st query
  let failCase := fun (e : String) =>
    (st1, some ("Error: " ++ e), countTokens query, 0, (0 : ℚ), false)
  let (st2, response_content, input_tokens, output_tokens, cost, success) :=
    match outcome with
    | .failure e => failCase e
    | .success resp =>
        match tryBody st1 countTokens query selected resp with
        | .error e => failCase e
        | .ok r => ({ st1 with total_cost := r.total_cost },
                    r.response_content, r.input_tokens,
                    r.output_tokens, r.cost, true)
  let st3 := { st2 with total_latency := st2.total_latency + latency_ms }
  (st3,
   { query := query
     response := response_content
     complexity := complexity_analysis
     model := selected
     input_tokens := input_tokens
     output_tokens := output_tokens
     total_tokens := input_tokens + output_tokens
     cost := pyRound 6 cost
     latency_ms := pyRound 2 latency_ms
     saved := selected == st.weak_model
     success := success })

end RouteLLM

namespace Metrics

/-- `sorted(all_latencies)` of `MetricsCollector.get_statistics`. -/
def sortedLatencies (l : List ℚ) : List ℚ :=
  l.mergeSort (fun a b => decide (a ≤ b))

/-- `sorted(all_latencies)[int(len(all_latencies) * 0.95)] if
all_latencies else 0`. -/
def percentile95 (l : List ℚ) : ℚ :=
  if l.isEmpty then 0 else (sortedLatencies l).getD (l.length * 95 / 100) 0

/-- `sorted(all_latencies)[int(len(all_latencies) * 0.99)] if
all_latencies else 0`. -/
def percentile99 (l : List ℚ) : ℚ :=
  if l.isEmpty then 0 else (sortedLatencies l).getD (l.length * 99 / 100) 0

end Metrics

namespace Comparison

/-- The fields of one per-query result that
`_generate_comparison_analysis` aggregates. -/
structure StrategyResult where
  latency_ms : ℚ
  cost : ℚ
  success : Bool

/-- `sum(r['latency_ms'] for r in results) / len(results)`. -/
def avgLatency (rs : List StrategyResult) : ℚ :=
  (rs.map (fun r => r.latency_ms)).sum / rs.length

/-- `sum(r['cost'] for r in results)`. -/
def totalCost (rs : List StrategyResult) : ℚ :=
  (rs.map (fun r => r.cost)).sum

/-- `(sum(1 for r in results if r['success']) / len(results)) * 100`. -/
def successRate (rs : List StrategyResult) : ℚ :=
  ((rs.filter (fun r => r.success)).length : ℚ) / rs.length * 100

/-- Winner cell of the `"Average Latency"` row:
`"Semantic Router ✓" if sem_avg_latency < route_avg_latency else
"RouteLLM ✓"`. -/
def latencyWinner (sem route : List StrategyResult) : String :=
  if avgLatency sem < avgLatency route then "Semantic Router ✓"
  else "RouteLLM ✓"

/-- Winner cell of the `"Total Cost"` row:
`"Semantic Router ✓" if sem_total_cost < route_total_cost else
"RouteLLM ✓"`. -/
def costWinner (sem route : List StrategyResult) : String :=
  if totalCost sem < totalCost route then "Semantic Router ✓"
  else "RouteLLM ✓"

/-- Winner cell of the `"Success Rate"` row:
`"Semantic Router ✓" if sem_success_rate >= route_success_rate else
"RouteLLM ✓"`. -/
def successWinner (sem route : List StrategyResult) : String :=
  if successRate sem ≥ successRate route then "Semantic Router ✓"
  else "RouteLLM ✓"

end Comparison

namespace RouteLLM

/-- The usage bookkeeping invariant of a router instance: the two model
counters and the three complexity counters each sum to the number of
processed queries. -/
def usageInvariant (st : RouterState) : Prop :=
  st.model_usage st.strong_model + st.model_usage st.weak_model
      = st.total_queries
  ∧ st.complexity_stats "high" + st.complexity_stats "medium"
      + st.complexity_stats "low" = st.total_queries

/-- A freshly constructed router with the default models and threshold
(used to instantiate universally quantified theorems at a concrete
state). -/
def demoState : RouterState :=
  { api_key := "sk-demo"
    strong_model := "gpt-4o-mini"
    weak_model := "gpt-4o-nano"
    threshold := 7 / 10
    costs := priceTable
    total_cost := 0
    total_queries := 0
    total_latency := 0
    model_usage := fun _ => 0
    complexity_stats := fun _ => 0 }

/-- A router whose configured strong tier is absent from the price table
(threshold 0, so every query is routed to the strong tier). -/
def badRouter : RouterState :=
  { demoState with
    api_key := "sk-test"
    strong_model := "gpt-5-ultra"
    threshold := 0 }

end RouteLLM

namespace PyStr

theorem subL_of_prefL {n h : List Char} (hp : prefL n h = true) :
    subL n h = true := by
  cases h with
  | nil => simpa [subL] using hp
  | cons b t => simp [subL, hp]

theorem subL_cons_of_subL {n t : List Char} (b : Char) (hs : subL n t = true) :
    subL n (b :: t) = true := by
  simp [subL, hs]

/-- If `c :: n` occurs inside `h` then so does `n`. -/
theorem subL_of_subL_cons {c : Char} {n : List Char} :
    ∀ {h : List Char}, subL (c :: n) h = true → subL n h = true := by
  intro h
  induction h with
  | nil => intro hc; simp [subL, prefL] at hc
  | cons b t ih =>
      intro hc
      rw [subL, Bool.or_eq_true] at hc
      rcases hc with hc | hc
      · rw [prefL, Bool.and_eq_true] at hc
        exact subL_cons_of_subL b (subL_of_prefL hc.2)
      · exact subL_cons_of_subL b (ih hc)

/-- Any query containing `"show"` contains `"how"`. -/
theorem pyIn_how_of_pyIn_show {q : String}
    (h : pyIn "show" q = true) : pyIn "how" q = true :=
  subL_of_subL_cons h

end PyStr

namespace RouteLLM

theorem route_state_fields (st : RouterState) (f : String → ℕ) (q : String)
    (oc : ApiOutcome) (lat : ℚ) :
    (route_and_execute st f q oc lat).1.total_queries = st.total_queries + 1
    ∧ (route_and_execute st f q oc lat).1.model_usage
        = (fun m => if m = selectModel st q then st.model_usage m + 1
                    else st.model_usage m)
    ∧ (route_and_execute st f q oc lat).1.complexity_stats
        = (fun l => if l = (classify_complexity q).level then
                      st.complexity_stats l + 1
                    else st.complexity_stats l)
    ∧ (route_and_execute st f q oc lat).1.strong_model = st.strong_model
    ∧ (route_and_execute st f q oc lat).1.weak_model = st.weak_model
    ∧ (route_and_execute st f q oc lat).1.threshold = st.threshold := by
  cases oc with
  | failure e => simp [route_and_execute, trackState]
  | success resp =>
      rcases h : tryBody (trackState st q) f q (selectModel st q) resp with e | r
      · simp only [route_and_execute]
        rw [h]
        simp [trackState]
      · simp only [route_and_execute]
        rw [h]
        simp [trackState]

theorem route_model_eq (st : RouterState) (f : String → ℕ) (q : String)
    (oc : ApiOutcome) (lat : ℚ) :
    (route_and_execute st f q oc lat).2.model = selectModel st q := by
  cases oc with
  | failure e => simp [route_and_execute]
  | success resp =>
      rcases h : tryBody (trackState st q) f q (selectModel st q) resp with e | r
      · simp [route_and_execute, h]
      · simp [route_and_execute, h]

/-- C3 — For every query, `route_and_execute` selects the strong tier
exactly when the complexity score is at least the configured threshold
and the weak tier otherwise; the threshold is stored at construction and
is unchanged by routing. -/
theorem threshold_routing (st : RouterState) (f : String → ℕ) (q : String)
    (oc : ApiOutcome) (lat : ℚ) :
    (route_and_execute st f q oc lat).2.model
      = (if (classify_complexity q).score ≥ st.threshold then st.strong_model
         else st.weak_model)
    ∧ (route_and_execute st f q oc lat).1.threshold = st.threshold
    ∧ (∀ (k : String) (e : Option String) (s w : String) (t : ℚ), k ≠ "" →
        (routerInit (some k) e s w t).map RouterState.threshold
          = Except.ok t) := by
  refine ⟨route_model_eq st f q oc lat, (route_state_fields st f q oc lat).2.2.2.2.2, ?_⟩
  intro k e s w t hk
  simp [routerInit, hk, Except.map]

/-- Witness for C3 at a concrete router, query and failure outcome. -/
theorem threshold_routing_witness :
    ("sk" ≠ "")
    ∧ (routerInit (some "sk") none "gpt-4o-mini" "gpt-4o-nano" (7/10)).map
        RouterState.threshold = Except.ok (7/10) := by
  refine ⟨by decide, ?_⟩
  exact (threshold_routing demoState (fun s => s.length) "hi"
    (.failure "boom") 0).2.2 "sk" none "gpt-4o-mini" "gpt-4o-nano" (7/10)
    (by decide)

/-- C4 — If the chat-completion call raises any error, `route_and_execute`
captures it and returns a well-formed decision with `success = false`,
`cost = 0` and zero output tokens (the error text is embedded in the
response); the exception is not propagated. -/
theorem failure_recovery (st : RouterState) (f : String → ℕ) (q e : String)
    (lat : ℚ) :
    (route_and_execute st f q (.failure e) lat).2.success = false
    ∧ (route_and_execute st f q (.failure e) lat).2.cost = 0
    ∧ (route_and_execute st f q (.failure e) lat).2.output_tokens = 0
    ∧ (route_and_execute st f q (.failure e) lat).2.response
        = some ("Error: " ++ e)
    ∧ (route_and_execute st f q (.failure e) lat).2.input_tokens = f q := by
  simp [route_and_execute, pyRound]

end RouteLLM

namespace RouteLLM

open PyStr

theorem selectModel_cases (st : RouterState) (q : String) :
    selectModel st q = st.strong_model ∨ selectModel st q = st.weak_model := by
  unfold selectModel
  split
  · exact Or.inl rfl
  · exact Or.inr rfl

theorem level_cases (q : String) :
    (classify_complexity q).level = "high"
    ∨ (classify_complexity q).level = "medium"
    ∨ (classify_complexity q).level = "low" := by
  show complexityLevel q = "high" ∨ complexityLevel q = "medium"
        ∨ complexityLevel q = "low"
  unfold complexityLevel
  split
  · exact Or.inl rfl
  · split
    · exact Or.inr (Or.inl rfl)
    · exact Or.inr (Or.inr rfl)

/-- C10 — Provided the strong and weak model names differ, every call to
`route_and_execute` — succeeding or failing — preserves the bookkeeping
invariant: the two usage counters sum to `total_queries` and the three
complexity counters sum to `total_queries` (the counters are bumped
before the external call, so failed queries are counted too). -/
theorem usage_invariant_preserved (st : RouterState) (f : String → ℕ)
    (q : String) (oc : ApiOutcome) (lat : ℚ)
    (hmodels : st.strong_model ≠ st.weak_model)
    (hinv : usageInvariant st) :
    usageInvariant (route_and_execute st f q oc lat).1 := by
  obtain ⟨h1, h2, h3, h4, h5, -⟩ := route_state_fields st f q oc lat
  obtain ⟨hu, hc⟩ := hinv
  constructor
  · rw [h1, h2, h4, h5]
    rcases selectModel_cases st q with hs | hs <;> rw [hs] <;>
      simp [hmodels, Ne.symm hmodels] <;> omega
  · rw [h1, h3]
    rcases level_cases q with hl | hl | hl <;> rw [hl] <;> simp <;> omega

/-- Witness for C10: the invariant survives one failed call on a fresh
default router. -/
theorem usage_invariant_preserved_witness :
    (demoState.strong_model ≠ demoState.weak_model)
    ∧ usageInvariant demoState
    ∧ usageInvariant
        (route_and_execute demoState (fun s => s.length) "hi"
          (.failure "boom") 0).1 := by
  refine ⟨by decide, ⟨rfl, rfl⟩, ?_⟩
  exact usage_invariant_preserved demoState (fun s => s.length) "hi"
    (.failure "boom") 0 (by decide) ⟨rfl, rfl⟩

/-- C9 — Keyword matching is substring containment on the lower-cased
query: a query containing `"show"` but no `high` keyword is classified
`"medium"` with base score 0.5, because `"how"` occurs inside
`"show"`. -/
theorem substring_show_medium (q : String)
    (hshow : pyIn "show" (pyLower q) = true)
    (hhigh : ∀ w ∈ highKeywords, pyIn w (pyLower q) = false) :
    (classify_complexity q).level = "medium"
    ∧ (classify_complexity q).base_score = 0.5 := by
  have hh : hasHigh q = false := by
    unfold hasHigh keywordCount
    simp only [decide_eq_false_iff_not, Nat.not_lt, Nat.le_zero,
      List.length_eq_zero, List.filter_eq_nil_iff]
    intro w hw
    simp [hhigh w hw]
  have hm : hasMedium q = true := by
    have hhow : pyIn "how" (pyLower q) = true := pyIn_how_of_pyIn_show hshow
    unfold hasMedium keywordCount
    simp only [decide_eq_true_eq]
    have : "how" ∈ mediumKeywords.filter (fun w => pyIn w (pyLower q)) :=
      List.mem_filter.mpr ⟨by simp [mediumKeywords], hhow⟩
    exact List.length_pos.mpr (List.ne_nil_of_mem this)
  constructor
  · show complexityLevel q = "medium"
    simp [complexityLevel, hh, hm]
  · show baseScore q = 0.5
    simp [baseScore, hh, hm]

/-- Witness for C9 at the query `"show me the table"` (no separate
medium keyword occurs as a word). -/
theorem substring_show_medium_witness :
    (pyIn "show" (pyLower "show me the table") = true)
    ∧ (∀ w ∈ highKeywords, pyIn w (pyLower "show me the table") = false)
    ∧ (classify_complexity "show me the table").level = "medium"
    ∧ (classify_complexity "show me the table").base_score = 0.5 := by
  refine ⟨by decide, by decide, ?_, ?_⟩
  · exact (substring_show_medium "show me the table" (by decide) (by decide)).1
  · exact (substring_show_medium "show me the table" (by decide) (by decide)).2

end RouteLLM

namespace Metrics

/-- C6 — For a non-empty latency list of length `n`, the reported p95 and
p99 are the ascending-sorted samples at indices `⌊n×0.95⌋` and
`⌊n×0.99⌋` (both indices are in range); with a single sample both
percentiles equal that sample. -/
theorem percentile_indexing (l : List ℚ) (h : l ≠ []) :
    (((l.length * 95 / 100 : ℕ) : ℤ) = ⌊(l.length : ℚ) * 0.95⌋)
    ∧ (((l.length * 99 / 100 : ℕ) : ℤ) = ⌊(l.length : ℚ) * 0.99⌋)
    ∧ (∃ (h95 : l.length * 95 / 100 < (sortedLatencies l).length),
        percentile95 l = (sortedLatencies l).get ⟨l.length * 95 / 100, h95⟩)
    ∧ (∃ (h99 : l.length * 99 / 100 < (sortedLatencies l).length),
        percentile99 l = (sortedLatencies l).get ⟨l.length * 99 / 100, h99⟩)
    ∧ (∀ x : ℚ, percentile95 [x] = x ∧ percentile99 [x] = x) := by
  have hn : 0 < l.length := List.length_pos.mpr h
  have hlen : (sortedLatencies l).length = l.length := by
    simp [sortedLatencies, List.length_mergeSort]
  have h95 : l.length * 95 / 100 < (sortedLatencies l).length := by
    rw [hlen]; omega
  have h99 : l.length * 99 / 100 < (sortedLatencies l).length := by
    rw [hlen]; omega
  have hne : l.isEmpty = false := by
    simp [List.isEmpty_iff, h]
  refine ⟨?_, ?_, ⟨h95, ?_⟩, ⟨h99, ?_⟩, ?_⟩
  · have : ((l.length : ℚ)) * 0.95 = ((l.length * 95 : ℕ) : ℚ) / ((100 : ℕ) : ℚ) := by
      push_cast; ring
    rw [this, Rat.floor_natCast_div_natCast]
    omega
  · have : ((l.length : ℚ)) * 0.99 = ((l.length * 99 : ℕ) : ℚ) / ((100 : ℕ) : ℚ) := by
      push_cast; ring
    rw [this, Rat.floor_natCast_div_natCast]
    omega
  · rw [percentile95, hne]
    simp only [Bool.false_eq_true, if_false]
    rw [List.getD_eq_getElem _ _ h95]
    simp [List.get_eq_getElem]
  · rw [percentile99, hne]
    simp only [Bool.false_eq_true, if_false]
    rw [List.getD_eq_getElem _ _ h99]
    simp [List.get_eq_getElem]
  · intro x
    constructor <;>
      simp [percentile95, percentile99, sortedLatencies]

/-- Witness for C6: a singleton list, where both percentiles are the
single sample. -/
theorem percentile_indexing_witness :
    (([(5 : ℚ)] : List ℚ) ≠ [])
    ∧ percentile95 [(5 : ℚ)] = 5 ∧ percentile99 [(5 : ℚ)] = 5 :=
  ⟨by simp,
   ((percentile_indexing [(5 : ℚ)] (by simp)).2.2.2.2 5).1,
   ((percentile_indexing [(5 : ℚ)] (by simp)).2.2.2.2 5).2⟩

end Metrics

namespace Comparison

/-- C8 (amended) — In the summary table the strategy with strictly lower
average latency (resp. strictly lower total cost) wins its row, but a tie
is not reported as "depends on use case": the `else` branch hands a tied
row to RouteLLM ("RouteLLM ✓"); the string "depends on use case" is never
produced by the winner computation. -/
theorem winner_rules (sem route : List StrategyResult) :
    (avgLatency sem < avgLatency route →
        latencyWinner sem route = "Semantic Router ✓")
    ∧ (avgLatency route ≤ avgLatency sem →
        latencyWinner sem route = "RouteLLM ✓")
    ∧ (totalCost sem < totalCost route →
        costWinner sem route = "Semantic Router ✓")
    ∧ (totalCost route ≤ totalCost sem →
        costWinner sem route = "RouteLLM ✓")
    ∧ latencyWinner sem route ≠ "depends on use case"
    ∧ costWinner sem route ≠ "depends on use case" := by
  unfold latencyWinner costWinner
  refine ⟨fun h => if_pos h, fun h => if_neg (not_lt.mpr h),
          fun h => if_pos h, fun h => if_neg (not_lt.mpr h), ?_, ?_⟩
  · split <;> decide
  · split <;> decide

/-- Counterexample to C8 as stated: two runs with identical average
latency (and another pair with identical total cost) are scored
"RouteLLM ✓", not "depends on use case". -/
theorem tie_not_reported_as_depends :
    avgLatency [⟨10, 5, true⟩] = avgLatency [⟨10, 7, true⟩]
    ∧ latencyWinner [⟨10, 5, true⟩] [⟨10, 7, true⟩] = "RouteLLM ✓"
    ∧ totalCost [⟨10, 5, true⟩] = totalCost [⟨20, 5, false⟩]
    ∧ costWinner [⟨10, 5, true⟩] [⟨20, 5, false⟩] = "RouteLLM ✓" := by
  refine ⟨by norm_num [avgLatency], ?_, by norm_num [totalCost], ?_⟩
  · rw [latencyWinner, if_neg]
    norm_num [avgLatency]
  · rw [costWinner, if_neg]
    norm_num [totalCost]

/-- Witness for C8 (amended): a strictly faster semantic run wins the
latency row. -/
theorem winner_rules_witness :
    (avgLatency [⟨3, 1, true⟩] < avgLatency [⟨5, 1, true⟩])
    ∧ latencyWinner [⟨3, 1, true⟩] [⟨5, 1, true⟩] = "Semantic Router ✓" := by
  have h : avgLatency [⟨3, 1, true⟩]
      < avgLatency [(⟨5, 1, true⟩ : StrategyResult)] := by
    norm_num [avgLatency]
  exact ⟨h, (winner_rules [⟨3, 1, true⟩] [⟨5, 1, true⟩]).1 h⟩

end Comparison

namespace RouteLLM

theorem round_mono_rat {x y : ℚ} (h : x ≤ y) : round x ≤ round y := by
  rw [round_eq, round_eq]
  exact Int.floor_mono (by linarith)

theorem pyRound_mono (d : ℕ) {x y : ℚ} (h : x ≤ y) :
    pyRound d x ≤ pyRound d y := by
  unfold pyRound
  have hr : round (x * 10 ^ d) ≤ round (y * 10 ^ d) :=
    round_mono_rat (by
      have hp : (0:ℚ) < 10 ^ d := by positivity
      nlinarith)
  have hc : ((round (x * 10 ^ d) : ℤ) : ℚ) ≤ ((round (y * 10 ^ d) : ℤ) : ℚ) :=
    Int.cast_le.mpr hr
  have hp : (0:ℚ) ≤ 10 ^ d := by positivity
  exact div_le_div_of_nonneg_right hc hp

theorem pyRound3_thousandth (k : ℤ) :
    pyRound 3 ((k : ℚ) / 1000) = (k : ℚ) / 1000 := by
  unfold pyRound
  rw [show ((k : ℚ) / 1000 * 10 ^ 3) = (k : ℚ) by norm_num, round_intCast]
  norm_num

theorem pyRound3_zero : pyRound 3 0 = 0 := by
  have h := pyRound3_thousandth 0
  norm_num at h
  exact h

theorem pyRound3_add_thousandth (k : ℤ) (x : ℚ) :
    pyRound 3 ((k : ℚ) / 1000 + x) = (k : ℚ) / 1000 + pyRound 3 x := by
  unfold pyRound
  rw [show (((k : ℚ) / 1000 + x) * 10 ^ 3) = (x * 10 ^ 3 + ((k : ℤ) : ℚ)) by
        ring]
  rw [round_add_int, Int.cast_add]
  ring

/-- Rounding to three decimals commutes with capping at 1 when the other
summand is an exact multiple of 1/1000. -/
theorem pyRound3_min_shift (m : ℤ) (f : ℚ) :
    pyRound 3 (min ((m : ℚ) / 1000 + f) 1)
      = min 1 ((m : ℚ) / 1000 + pyRound 3 f) := by
  rcases le_total ((m : ℚ) / 1000 + f) 1 with h | h
  · rw [min_eq_left h, pyRound3_add_thousandth]
    have h1 : f ≤ ((1000 - m : ℤ) : ℚ) / 1000 := by push_cast; linarith
    have h2 := pyRound_mono 3 h1
    rw [pyRound3_thousandth] at h2
    have h3 : (m : ℚ) / 1000 + pyRound 3 f ≤ 1 := by push_cast at h2; linarith
    rw [min_eq_right h3]
  · rw [min_eq_right h]
    have h1 : ((1000 - m : ℤ) : ℚ) / 1000 ≤ f := by push_cast; linarith
    have h2 := pyRound_mono 3 h1
    rw [pyRound3_thousandth] at h2
    have h3 : 1 ≤ (m : ℚ) / 1000 + pyRound 3 f := by push_cast at h2; linarith
    rw [min_eq_left h3]
    have h4 := pyRound3_thousandth 1000
    norm_num at h4
    exact h4

theorem baseScore_thousandth (q : String) :
    ∃ m : ℤ, 0 ≤ m ∧ baseScore q = (m : ℚ) / 1000 := by
  unfold baseScore
  split
  · exact ⟨800, by norm_num⟩
  · split
    · exact ⟨500, by norm_num⟩
    · exact ⟨300, by norm_num⟩

theorem techBoost_thousandth (q : String) :
    ∃ m : ℤ, 0 ≤ m ∧ techBoost q = (m : ℚ) / 1000 := by
  unfold techBoost
  rcases le_total ((techCount (PyStr.pyLower q) : ℚ) * 0.1) 0.2 with h | h
  · refine ⟨100 * techCount (PyStr.pyLower q), by positivity, ?_⟩
    rw [min_eq_left h]
    push_cast
    ring
  · exact ⟨200, by norm_num, by rw [min_eq_right h]; norm_num⟩

theorem questionFactor_thousandth (q : String) :
    ∃ m : ℤ, 0 ≤ m ∧ questionFactor q = (m : ℚ) / 1000 := by
  unfold questionFactor
  rcases le_total ((questionMarks q : ℚ) * 0.05) 0.1 with h | h
  · refine ⟨50 * questionMarks q, by positivity, ?_⟩
    rw [min_eq_left h]
    push_cast
    ring
  · exact ⟨100, by norm_num, by rw [min_eq_right h]; norm_num⟩

/-- The rounded score is the capped sum of the rounded factors: the base
score, tech boost and question factor are exact multiples of 1/1000, so
rounding only really acts on the length factor, and commutes with the
cap. -/
theorem score_decomposition (q : String) :
    (classify_complexity q).score
      = min 1 ((classify_complexity q).base_score
          + (classify_complexity q).length_factor
          + (classify_complexity q).tech_boost
          + (classify_complexity q).question_factor) := by
  obtain ⟨mb, -, hb⟩ := baseScore_thousandth q
  obtain ⟨mt, -, ht⟩ := techBoost_thousandth q
  obtain ⟨mq, -, hq⟩ := questionFactor_thousandth q
  show pyRound 3 (finalComplexity q)
      = min 1 (baseScore q + pyRound 3 (lengthFactor q)
          + pyRound 3 (techBoost q) + pyRound 3 (questionFactor q))
  unfold finalComplexity
  rw [hb, ht, hq, pyRound3_thousandth, pyRound3_thousandth]
  rw [show ((mb : ℚ)/1000 + lengthFactor q + (mt : ℚ)/1000 + (mq : ℚ)/1000)
        = ((mb + mt + mq : ℤ) : ℚ)/1000 + lengthFactor q by push_cast; ring]
  rw [pyRound3_min_shift]
  congr 1
  push_cast
  ring

theorem lengthFactor_bounds (q : String) :
    0 ≤ lengthFactor q ∧ lengthFactor q ≤ 0.2 := by
  unfold lengthFactor
  exact ⟨le_min (by positivity) (by norm_num), min_le_right _ _⟩

theorem techBoost_bounds (q : String) :
    0 ≤ techBoost q ∧ techBoost q ≤ 0.2 := by
  unfold techBoost
  exact ⟨le_min (by positivity) (by norm_num), min_le_right _ _⟩

theorem questionFactor_bounds (q : String) :
    0 ≤ questionFactor q ∧ questionFactor q ≤ 0.1 := by
  unfold questionFactor
  exact ⟨le_min (by positivity) (by norm_num), min_le_right _ _⟩

theorem baseScore_bounds (q : String) :
    (3 : ℚ)/10 ≤ baseScore q ∧ baseScore q ≤ (8 : ℚ)/10 := by
  unfold baseScore
  split
  · norm_num
  · split <;> norm_num

theorem roundedLengthFactor_bounds (q : String) :
    0 ≤ pyRound 3 (lengthFactor q) ∧ pyRound 3 (lengthFactor q) ≤ 0.2 := by
  constructor
  · have h := pyRound_mono 3 (lengthFactor_bounds q).1
    rwa [pyRound3_zero] at h
  · have h := pyRound_mono 3 (lengthFactor_bounds q).2
    have h2 := pyRound3_thousandth 200
    norm_num at h h2 ⊢
    linarith

/-- C2 — For every query the returned score is in `[0, 1]` and equals
`min(1.0, base_score + length_factor + tech_boost + question_factor)`
computed over the returned factors; each factor is non-negative and
individually capped (length at 0.2, tech boost at 0.2, question factor
at 0.1). -/
theorem score_bounds_and_sum (q : String) :
    (0 ≤ (classify_complexity q).score ∧ (classify_complexity q).score ≤ 1)
    ∧ (classify_complexity q).score
        = min 1 ((classify_complexity q).base_score
            + (classify_complexity q).length_factor
            + (classify_complexity q).tech_boost
            + (classify_complexity q).question_factor)
    ∧ (0 ≤ (classify_complexity q).base_score)
    ∧ (0 ≤ (classify_complexity q).length_factor
        ∧ (classify_complexity q).length_factor ≤ 0.2)
    ∧ (0 ≤ (classify_complexity q).tech_boost
        ∧ (classify_complexity q).tech_boost ≤ 0.2)
    ∧ (0 ≤ (classify_complexity q).question_factor
        ∧ (classify_complexity q).question_factor ≤ 0.1) := by
  obtain ⟨mt, hmt, ht⟩ := techBoost_thousandth q
  obtain ⟨mq, hmq, hq⟩ := questionFactor_thousandth q
  have htb : (classify_complexity q).tech_boost = techBoost q := by
    show pyRound 3 (techBoost q) = techBoost q
    rw [ht, pyRound3_thousandth]
  have hqb : (classify_complexity q).question_factor = questionFactor q := by
    show pyRound 3 (questionFactor q) = questionFactor q
    rw [hq, pyRound3_thousandth]
  have hbb : (classify_complexity q).base_score = baseScore q := rfl
  have hlb : (classify_complexity q).length_factor
      = pyRound 3 (lengthFactor q) := rfl
  have hsum := score_decomposition q
  have hb0 := (baseScore_bounds q).1
  have hl0 := (roundedLengthFactor_bounds q).1
  have ht0 := (techBoost_bounds q).1
  have hq0 := (questionFactor_bounds q).1
  refine ⟨⟨?_, ?_⟩, hsum, ?_, ?_, ?_, ?_⟩
  · rw [hsum]
    apply le_min (by norm_num)
    rw [hbb, hlb, htb, hqb]
    linarith
  · rw [hsum]
    exact min_le_left _ _
  · rw [hbb]; linarith
  · rw [hlb]; exact roundedLengthFactor_bounds q
  · rw [htb]; exact techBoost_bounds q
  · rw [hqb]; exact questionFactor_bounds q

/-- C7 — Holding the length, technical-term and question factors fixed, a
query that keeps at least the keyword-tier matches of another (so with
matched `high` keywords present rather than removed) never scores lower:
the score is monotone in the matched tiers. -/
theorem keyword_monotonicity (q1 q2 : String)
    (hh : hasHigh q2 = true → hasHigh q1 = true)
    (hm : hasMedium q2 = true → hasMedium q1 = true)
    (hl : lengthFactor q1 = lengthFactor q2)
    (ht : techBoost q1 = techBoost q2)
    (hq : questionFactor q1 = questionFactor q2) :
    (classify_complexity q2).score ≤ (classify_complexity q1).score := by
  have hb : baseScore q2 ≤ baseScore q1 := by
    unfold baseScore
    by_cases h2 : hasHigh q2 = true
    · rw [if_pos h2, if_pos (hh h2)]
    · by_cases h2m : hasMedium q2 = true
      · rw [if_neg h2, if_pos h2m]
        by_cases h1 : hasHigh q1 = true
        · rw [if_pos h1]; norm_num
        · rw [if_neg h1, if_pos (hm h2m)]
      · rw [if_neg h2, if_neg h2m]
        by_cases h1 : hasHigh q1 = true
        · rw [if_pos h1]; norm_num
        · rw [if_neg h1]
          by_cases h1m : hasMedium q1 = true
          · rw [if_pos h1m]; norm_num
          · rw [if_neg h1m]
  show pyRound 3 (finalComplexity q2) ≤ pyRound 3 (finalComplexity q1)
  apply pyRound_mono
  unfold finalComplexity
  rw [hl, ht, hq]
  exact min_le_min (by linarith) le_rfl

/-- Witness for C7: `"explain"` (a matched `high` keyword) versus
`"whatwha"` (same length, no tier matched beyond `low`, same technical
and question factors). -/
theorem keyword_monotonicity_witness :
    (hasHigh "whatwha" = true → hasHigh "explain" = true)
    ∧ (hasMedium "whatwha" = true → hasMedium "explain" = true)
    ∧ lengthFactor "explain" = lengthFactor "whatwha"
    ∧ techBoost "explain" = techBoost "whatwha"
    ∧ questionFactor "explain" = questionFactor "whatwha"
    ∧ (classify_complexity "whatwha").score
        ≤ (classify_complexity "explain").score := by
  have hl : lengthFactor "explain" = lengthFactor "whatwha" := by
    rw [lengthFactor, lengthFactor,
      show ("explain" : String).length = 7 from by decide,
      show ("whatwha" : String).length = 7 from by decide]
  have ht : techBoost "explain" = techBoost "whatwha" := by
    rw [techBoost, techBoost,
      show techCount (PyStr.pyLower "explain") = 0 from by decide,
      show techCount (PyStr.pyLower "whatwha") = 0 from by decide]
  have hq : questionFactor "explain" = questionFactor "whatwha" := by
    rw [questionFactor, questionFactor,
      show questionMarks "explain" = 0 from by decide,
      show questionMarks "whatwha" = 0 from by decide]
  exact ⟨by decide, by decide, hl, ht, hq,
    keyword_monotonicity "explain" "whatwha" (by decide) (by decide) hl ht hq⟩

end RouteLLM

namespace RouteLLM

theorem score_nonneg (q : String) : 0 ≤ (classify_complexity q).score := by
  show 0 ≤ pyRound 3 (finalComplexity q)
  have h : (0:ℚ) ≤ finalComplexity q := by
    unfold finalComplexity
    have hb := (baseScore_bounds q).1
    have hl := (lengthFactor_bounds q).1
    have ht := (techBoost_bounds q).1
    have hq := (questionFactor_bounds q).1
    exact le_min (by linarith) (by norm_num)
  have h2 := pyRound_mono 3 h
  rwa [pyRound3_zero] at h2

/-- A `KeyError` from `self.costs[selected_model]` (line 195) is raised
inside the `try` block and lands in the `except` branch: the call still
returns, marked unsuccessful with zero cost. -/
theorem missing_price_absorbed (st : RouterState) (f : String → ℕ)
    (q : String) (resp : ApiResponse) (lat : ℚ)
    (h : lookupPrice st.costs (selectModel st q) = none) :
    (route_and_execute st f q (.success resp) lat).2.success = false
    ∧ (route_and_execute st f q (.success resp) lat).2.cost = 0 := by
  have hcosts : (trackState st q).costs = st.costs := rfl
  have htry : tryBody (trackState st q) f q (selectModel st q) resp
      = .error ("KeyError: " ++ selectModel st q) := by
    unfold tryBody
    rw [hcosts, h]
  constructor
  · simp only [route_and_execute]
    rw [htry]
  · simp only [route_and_execute]
    rw [htry]
    simp [pyRound]

theorem badRouter_select : selectModel badRouter "hi" = "gpt-5-ultra" := by
  unfold selectModel
  rw [if_pos (show (classify_complexity "hi").score ≥ badRouter.threshold
        from score_nonneg "hi")]
  rfl

theorem badRouter_lookup :
    lookupPrice badRouter.costs (selectModel badRouter "hi") = none := by
  rw [badRouter_select]
  decide

/-- Counterexample to C5 as stated: a router whose strong tier
`"gpt-5-ultra"` has no price entry is constructed without any error, and
a query routed to that tier (with a successful API call) is absorbed as a
failed decision during routing instead. -/
theorem missing_price_counterexample :
    routerInit (some "sk-test") none "gpt-5-ultra" "gpt-4o-nano" 0
      = .ok badRouter
    ∧ lookupPrice badRouter.costs badRouter.strong_model = none
    ∧ (route_and_execute badRouter (fun s => s.length) "hi"
        (.success ⟨some "ok", none⟩) 0).2.success = false
    ∧ (route_and_execute badRouter (fun s => s.length) "hi"
        (.success ⟨some "ok", none⟩) 0).2.model = "gpt-5-ultra" := by
  refine ⟨rfl, by decide, ?_, ?_⟩
  · exact (missing_price_absorbed badRouter (fun s => s.length) "hi"
      ⟨some "ok", none⟩ 0 badRouter_lookup).1
  · rw [route_model_eq, badRouter_select]

/-- C5 (amended) — Only a missing credential is a configuration error
raised at construction; a model tier absent from the price table is not
checked at construction: the resulting `KeyError` during routing of a
query is caught by `route_and_execute` and recorded as a failed decision
with zero cost. -/
theorem config_error_semantics :
    (∀ (s w : String) (t : ℚ), routerInit none none s w t
        = .error "OpenAI API key not found. Set OPENAI_API_KEY environment variable or pass api_key parameter.")
    ∧ (∀ (k : String), k ≠ "" → ∀ (e : Option String) (s w : String) (t : ℚ),
        ∃ st, routerInit (some k) e s w t = .ok st ∧ st.costs = priceTable
          ∧ st.strong_model = s ∧ st.weak_model = w)
    ∧ (∀ (st : RouterState) (f : String → ℕ) (q : String)
        (resp : ApiResponse) (lat : ℚ),
        lookupPrice st.costs (selectModel st q) = none →
        (route_and_execute st f q (.success resp) lat).2.success = false
        ∧ (route_and_execute st f q (.success resp) lat).2.cost = 0) := by
  refine ⟨fun s w t => rfl, ?_, ?_⟩
  · intro k hk e s w t
    refine ⟨{ api_key := k, strong_model := s, weak_model := w, threshold := t,
              costs := priceTable, total_cost := 0, total_queries := 0,
              total_latency := 0, model_usage := fun _ => 0,
              complexity_stats := fun _ => 0 }, ?_, rfl, rfl, rfl⟩
    simp [routerInit, hk]
  · intro st f q resp lat h
    exact missing_price_absorbed st f q resp lat h

/-- Witness for C5 (amended) at a concrete key, configuration and
query. -/
theorem config_error_semantics_witness :
    ("sk-test" ≠ "")
    ∧ (∃ st, routerInit (some "sk-test") none "gpt-5-ultra" "gpt-4o-nano" 0
          = .ok st ∧ st.costs = priceTable ∧ st.strong_model = "gpt-5-ultra"
          ∧ st.weak_model = "gpt-4o-nano")
    ∧ lookupPrice badRouter.costs (selectModel badRouter "hi") = none
    ∧ (route_and_execute badRouter (fun s => s.length) "hi"
        (.success ⟨some "ok", none⟩) 0).2.success = false := by
  refine ⟨by decide,
    config_error_semantics.2.1 "sk-test" (by decide) none "gpt-5-ultra"
      "gpt-4o-nano" 0,
    badRouter_lookup, ?_⟩
  exact (config_error_semantics.2.2 badRouter (fun s => s.length) "hi"
    ⟨some "ok", none⟩ 0 badRouter_lookup).1

end RouteLLM

namespace RouteLLM

theorem pyRound_int_div (d : ℕ) (k : ℤ) :
    pyRound d ((k : ℚ) / 10 ^ d) = (k : ℚ) / 10 ^ d := by
  unfold pyRound
  rw [div_mul_cancel₀ ((k : ℚ)) (by positivity : ((10:ℚ) ^ d) ≠ 0), round_intCast]

theorem score_hi : (classify_complexity "hi").score = 307/1000 := by
  have h1 : hasHigh "hi" = false := by decide
  have h2 : hasMedium "hi" = false := by decide
  have h3 : techCount (PyStr.pyLower "hi") = 0 := by decide
  have h4 : questionMarks "hi" = 0 := by decide
  have h5 : ("hi" : String).length = 2 := by decide
  simp [classify_complexity, pyRound, finalComplexity, baseScore, lengthFactor,
        techBoost, questionFactor, h1, h2, h3, h4, h5]
  norm_num [round_eq]

theorem select_demo_hi : selectModel demoState "hi" = "gpt-4o-nano" := by
  unfold selectModel
  rw [if_neg]
  · rfl
  · rw [score_hi]
    show ¬((307:ℚ)/1000 ≥ demoState.threshold)
    norm_num [demoState]

/-- The `try` block on the demo run `"hi"` (routed weak, answer `"ok"`,
authoritative usage 200/100 tokens): line 198 adds the estimated cost
9/8000000 to the aggregate, and the "adjustment" of line 210 subtracts
and re-adds the same `actual_cost` (because line 207 overwrote `cost`
first), leaving the aggregate at the estimate while the per-query cost
becomes the authoritative 9/1000000. -/
theorem tryBody_demo_hi :
    tryBody (trackState demoState "hi") String.length "hi" "gpt-4o-nano"
      ⟨some "ok", some ⟨200, 100⟩⟩
    = .ok ⟨9/8000000, some "ok", 200, 100, 9/1000000⟩ := by
  unfold tryBody
  rw [show lookupPrice (trackState demoState "hi").costs "gpt-4o-nano"
        = some (0.000015, 0.00006) from by rfl]
  simp only [show ("hi" ++ sysPrompt).length = 67 from by decide,
    show (("ok" : String) = "") = False from by simp, if_false,
    show ("ok" : String).length = 2 from by decide]
  simp only [trackState, demoState]
  norm_num

/-- C1 — Evaluation of the code at the failing input: one query on a
fresh router, with authoritative usage metadata whose cost (9/1000000)
differs from the tiktoken estimate (9/8000000).  Line 207 (`cost =
actual_cost`) runs before line 210 (`self.total_cost = self.total_cost -
cost + actual_cost`), so the intended signed-delta correction is
identically zero: the aggregate keeps the estimate and differs from the
sum of the recorded per-query costs, contradicting the correction
invariant. -/
theorem total_cost_not_corrected :
    demoState.total_cost = 0
    ∧ (route_and_execute demoState String.length "hi"
        (.success ⟨some "ok", some ⟨200, 100⟩⟩) 0).1.total_cost = 9/8000000
    ∧ (route_and_execute demoState String.length "hi"
        (.success ⟨some "ok", some ⟨200, 100⟩⟩) 0).2.cost = 9/1000000
    ∧ (route_and_execute demoState String.length "hi"
          (.success ⟨some "ok", some ⟨200, 100⟩⟩) 0).1.total_cost
        ≠ (route_and_execute demoState String.length "hi"
          (.success ⟨some "ok", some ⟨200, 100⟩⟩) 0).2.cost := by
  have hmain :
      (route_and_execute demoState String.length "hi"
        (.success ⟨some "ok", some ⟨200, 100⟩⟩) 0).1.total_cost = 9/8000000
      ∧ (route_and_execute demoState String.length "hi"
        (.success ⟨some "ok", some ⟨200, 100⟩⟩) 0).2.cost = 9/1000000 := by
    simp only [route_and_execute, select_demo_hi, tryBody_demo_hi]
    constructor
    · trivial
    · show pyRound 6 (9/1000000) = 9/1000000
      have h := pyRound_int_div 6 9
      norm_num at h ⊢
      exact h
  refine ⟨rfl, hmain.1, hmain.2, ?_⟩
  rw [hmain.1, hmain.2]
  norm_num

end RouteLLM
